import Mathlib

/-!
Shallow embedding of the workforce-analytics core of the HRMS repository:
the productivity scorer (`ProductivityService.calculateScore`), the skill-gap
analyzer (`calculateEmployeeSkillGap`), the performance-trend predictor
(`predictPerformanceTrend` / `calculateLinearRegression`) and the
task-assignment recommender (`recommendEmployeesForTask` /
`validateEmployeeForTask`).

Conventions of the embedding:
* JavaScript numbers are modelled as `ℚ`; `Math.round` is `round : ℚ → ℤ`
  (both are round-half-up, i.e. `⌊x + 1/2⌋`).
* Timestamps are epoch milliseconds in `ℚ` (matching `Date.getTime()`);
  the SQL `EXTRACT(EPOCH FROM ...)/3600` conversion to hours divides by
  3600000 and the `getTime()/(1000*60*60*24)` conversion to days divides
  by 86400000.
* Each SQL query result consumed by a service function is passed in as an
  `Except Unit _` value: `.ok` carries the rows the query would return for
  the current store state, `.error` models a query failure thrown by the
  driver.  SQL aggregates (`COUNT`, `AVG` with `FILTER`) are recomputed in
  Lean from the underlying task rows, with `AVG` of an empty selection
  yielding `none` (SQL `NULL`).
* JavaScript `x || d` applied to a parsed numeric column is modelled by
  `orElseIfZero`: `NULL`/absent and `0` (both falsy after `parseFloat`)
  fall back to the default `d`.
-/

namespace HRMS

/-! ### Data model (tables `tasks`, `employees`, `productivity_scores`) -/

inductive TaskStatus where
  | assigned
  | inProgress
  | completed
deriving DecidableEq

inductive Complexity where
  | low
  | medium
  | high
deriving DecidableEq

/-- A row of the `tasks` table as selected by the scorer queries
(status, complexity, `created_at`, `completed_at`); timestamps are epoch
milliseconds, `completed_at` is nullable. -/
structure Task where
  status : TaskStatus
  complexity : Complexity
  createdAt : ℚ
  completedAt : Option ℚ
deriving DecidableEq

/-- Milliseconds in an hour: `EXTRACT(EPOCH ...)/3600` on ms-timestamps. -/
def msPerHour : ℚ := 3600000

/-- Milliseconds in a day: `getTime() / (1000*60*60*24)`. -/
def msPerDay : ℚ := 86400000

/-- `Math.max(0, Math.min(100, x))`. -/
def clamp0100 (x : ℚ) : ℚ := max 0 (min 100 x)

/-- `parseFloat(x.toFixed(2))`: round to two decimal places. -/
def round2 (x : ℚ) : ℚ := ((round (x * 100) : ℤ) : ℚ) / 100

/-- `parseFloat(column) || d`: a `NULL` column and a `0` value are both
falsy in JavaScript, so both fall back to the default. -/
def orElseIfZero (x : Option ℚ) (d : ℚ) : ℚ :=
  match x with
  | none => d
  | some v => if v = 0 then d else v

/-- JavaScript `String.prototype.toLowerCase`, modelled per character
(`Char.toLower` over the string's characters). -/
def strToLower (s : String) : String := String.mk (s.data.map Char.toLower)

/-! ### ProductivityService (`productivity.service.ts`) -/

/-- The `CASE` weights of the scorer's task query:
low = 1, medium = 1.5, high = 2. -/
def complexityWeight : Complexity → ℚ
  | .low => 1
  | .medium => 3 / 2
  | .high => 2

/-- `FILTER (WHERE status = 'completed')` applied to the employee's tasks. -/
def completedOf (tasks : List Task) : List Task :=
  tasks.filter (fun t => decide (t.status = TaskStatus.completed))

/-- `AVG(EXTRACT(EPOCH FROM (completed_at - created_at)) / 3600)
FILTER (WHERE status = 'completed')`: the mean completion time in hours
over completed tasks, `none` (SQL `NULL`) when no completed task has a
completion timestamp. -/
def avgHoursOpt (tasks : List Task) : Option ℚ :=
  let durs := (completedOf tasks).filterMap
    (fun t => t.completedAt.map (fun c => (c - t.createdAt) / msPerHour))
  if durs.isEmpty then none else some (durs.sum / (durs.length : ℚ))

/-- `AVG(CASE complexity ...) FILTER (WHERE status = 'completed')`:
mean complexity weight over completed tasks, `NULL` when there are none. -/
def avgComplexityOpt (tasks : List Task) : Option ℚ :=
  let ws := (completedOf tasks).map (fun t => complexityWeight t.complexity)
  if ws.isEmpty then none else some (ws.sum / (ws.length : ℚ))

/-- The record returned (and persisted) by
`ProductivityService.calculateScore`; the `calculatedAt` wall-clock field
is outside the embedding. -/
structure ProductivityScore where
  score : ℚ
  completionRate : ℚ
  averageCompletionTime : ℚ
  taskComplexityHandled : ℚ
deriving DecidableEq

/-- `ProductivityService.calculateScore`, as a function of the rows the
task query returns for the employee.  Mirrors the source: baseline record
for zero tasks; otherwise completion rate, defaulted averages, clamp and
two-decimal rounding with weights 0.4 / 0.3 / 0.3. -/
def calculateScore (tasks : List Task) : ProductivityScore :=
  let completedTasks := (completedOf tasks).length
  let totalTasks := tasks.length
  if totalTasks = 0 then
    { score := 50, completionRate := 0,
      averageCompletionTime := 0, taskComplexityHandled := 0 }
  else
    let completionRate : ℚ := (completedTasks : ℚ) / (totalTasks : ℚ) * 100
    let avgHours := orElseIfZero (avgHoursOpt tasks) 24
    let avgComplexity := orElseIfZero (avgComplexityOpt tasks) 1
    let completionTimeScore := clamp0100 (24 / avgHours * 100)
    let complexityScore := avgComplexity / 2 * 100
    let rawScore := completionRate * (2 / 5) + completionTimeScore * (3 / 10)
      + complexityScore * (3 / 10)
    let normalizedScore := clamp0100 rawScore
    { score := round2 normalizedScore,
      completionRate := round2 completionRate,
      averageCompletionTime := round2 avgHours,
      taskComplexityHandled := round2 avgComplexity }

/-- `storeScore`: the `INSERT` into `productivity_scores` appends one row. -/
def storeScore (history : List ProductivityScore) (s : ProductivityScore) :
    List ProductivityScore :=
  history ++ [s]

/-- `calculateScore` together with its persistence side effect. -/
def calculateScoreAndStore (history : List ProductivityScore)
    (tasks : List Task) : ProductivityScore × List ProductivityScore :=
  let s := calculateScore tasks
  (s, storeScore history s)

/-! ### A stable sort on an integer key

Both services sort with `Array.prototype.sort` and a numeric comparator
(`priorityOrder[a] - priorityOrder[b]`, resp.
`b.suitabilityScore - a.suitabilityScore`).  `Array.prototype.sort` is
specified to be stable, so we embed it as insertion sort on the comparator
key (Mathlib's `List.insertionSort` inserts every element before the
elements of equal key that came later, hence is stable). -/

/-- Stable sort by ascending integer key. -/
def sortByKey {α : Type} (k : α → ℤ) (l : List α) : List α :=
  l.insertionSort (fun a b => k a ≤ k b)

/-! ### SkillGapAnalyzer (`skillgap.service.ts`) -/

/-- A row of the `employees` table as consumed by the analyzers and the
recommender: `id, name, email, role, department, skills, is_active`. -/
structure Employee where
  id : Nat
  name : String
  email : String
  role : String
  department : String
  skills : List String
  isActive : Bool
deriving DecidableEq

inductive Priority where
  | critical
  | high
  | medium
  | low
deriving DecidableEq

/-- The `priorityOrder` table used by both comparators:
critical 0, high 1, medium 2, low 3. -/
def priorityOrder : Priority → ℤ
  | .critical => 0
  | .high => 1
  | .medium => 2
  | .low => 3

/-- JavaScript `String.prototype.includes`: substring containment. -/
def strIncludes (s sub : String) : Bool :=
  s.data.tails.any (fun t => sub.data.isPrefixOf t)

def criticalKeywords : List String :=
  ["javascript", "python", "java", "sql", "react", "node"]

def highKeywords : List String :=
  ["typescript", "api", "database", "testing", "git"]

def mediumKeywords : List String :=
  ["agile", "scrum", "ci/cd", "docker"]

/-- `determineSkillPriority`: keyword classification of the missing skill
name (the `role` and `requiredSkills` arguments of the source are unused
by its body). -/
def determineSkillPriority (skill : String) : Priority :=
  let skillLower := strToLower skill
  if criticalKeywords.any (fun k => strIncludes skillLower k) then .critical
  else if highKeywords.any (fun k => strIncludes skillLower k) then .high
  else if mediumKeywords.any (fun k => strIncludes skillLower k) then .medium
  else .low

/-- One entry of `missingSkills`. -/
structure SkillGap where
  skill : String
  priority : Priority
  reason : String
deriving DecidableEq

/-- Case-insensitive membership test of a required skill in the current
skill list: `currentSkills.some(s => s.toLowerCase() === required.toLowerCase())`. -/
def hasSkill (currentSkills : List String) (required : String) : Bool :=
  currentSkills.any (fun s => strToLower s == strToLower required)

/-- The `missingSkills` accumulation loop of `calculateEmployeeSkillGap`,
in the order of the role's requirement list (before sorting). -/
def missingSkillsFor (currentSkills requiredSkills : List String)
    (role : String) : List SkillGap :=
  (requiredSkills.filter (fun r => ! hasSkill currentSkills r)).map
    (fun r =>
      { skill := r, priority := determineSkillPriority r,
        reason := "Required for " ++ role ++ " role" })

/-- `Math.round((missingCount / totalRequired) * 100)`, `0` when the role
requires no skills. -/
def skillGapScoreOf (currentSkills requiredSkills : List String) : ℤ :=
  let totalRequired := requiredSkills.length
  let missingCount :=
    (requiredSkills.filter (fun r => ! hasSkill currentSkills r)).length
  if 0 < totalRequired then
    round ((missingCount : ℚ) / (totalRequired : ℚ) * 100)
  else 0

structure EmployeeSkillGap where
  employeeId : Nat
  employeeName : String
  role : String
  currentSkills : List String
  missingSkills : List SkillGap
  skillGapScore : ℤ

/-- `calculateEmployeeSkillGap`, as a function of the employee-row query
result and of the resolved requirement list for the employee's role
(`getRoleRequirements` output).  `null` for a missing employee; employee
query failures propagate (the outer catch rethrows). -/
def calculateEmployeeSkillGap (employeeQ : Except Unit (Option Employee))
    (requiredSkills : List String) : Except Unit (Option EmployeeSkillGap) :=
  match employeeQ with
  | .error e => .error e
  | .ok none => .ok none
  | .ok (some emp) =>
    let currentSkills := emp.skills
    let missingSkills := missingSkillsFor currentSkills requiredSkills emp.role
    .ok (some
      { employeeId := emp.id
        employeeName := emp.name
        role := emp.role
        currentSkills := currentSkills
        missingSkills :=
          sortByKey (fun g => priorityOrder g.priority) missingSkills
        skillGapScore := skillGapScoreOf currentSkills requiredSkills })

/-! ### TrendPredictor (`performancetrend.service.ts`) -/

/-- One row of the 30-day score-history query: `score, calculated_at`
(epoch milliseconds). -/
structure ScoreDataPoint where
  score : ℚ
  date : ℚ
deriving DecidableEq

instance : Inhabited ScoreDataPoint := ⟨⟨0, 0⟩⟩

structure Regression where
  slope : ℚ
  intercept : ℚ
  rSquared : ℚ
deriving DecidableEq

/-- `calculateLinearRegression`: ordinary least squares of score against
days elapsed since the first point, with the source's zero-denominator
guards (slope 0 on constant x, R² 0 on constant y) and the `n < 2`
early return. -/
def calculateLinearRegression (dataPoints : List ScoreDataPoint) : Regression :=
  let n := dataPoints.length
  if n < 2 then { slope := 0, intercept := 0, rSquared := 0 }
  else
    let firstDate := dataPoints.headI.date
    let x := dataPoints.map (fun p => (p.date - firstDate) / msPerDay)
    let y := dataPoints.map (fun p => p.score)
    let xMean : ℚ := x.sum / (n : ℚ)
    let yMean : ℚ := y.sum / (n : ℚ)
    let numerator : ℚ :=
      ((x.zip y).map (fun q => (q.1 - xMean) * (q.2 - yMean))).sum
    let denominator : ℚ := (x.map (fun xi => (xi - xMean) ^ 2)).sum
    let slope : ℚ := if denominator = 0 then 0 else numerator / denominator
    let intercept : ℚ := yMean - slope * xMean
    let ssRes : ℚ :=
      ((x.zip y).map (fun q => (q.2 - (slope * q.1 + intercept)) ^ 2)).sum
    let ssTot : ℚ := (y.map (fun yi => (yi - yMean) ^ 2)).sum
    let rSquared : ℚ := if ssTot = 0 then 0 else 1 - ssRes / ssTot
    { slope := slope, intercept := intercept, rSquared := rSquared }

inductive Trend where
  | improving
  | declining
  | stable
deriving DecidableEq

/-- The slope classification of `predictPerformanceTrend`:
`> 0.5` improving, `< -0.5` declining, otherwise stable. -/
def classifyTrend (slope : ℚ) : Trend :=
  if slope > 1 / 2 then .improving
  else if slope < -(1 / 2) then .declining
  else .stable

/-- `getHistoricalScores`: the 30-day ascending score-history query, with
its own catch that turns a query failure into an empty list. -/
def getHistoricalScores (historyQ : Except Unit (List ScoreDataPoint)) :
    List ScoreDataPoint :=
  match historyQ with
  | .ok rows => rows
  | .error _ => []

/-- `historicalScores[historicalScores.length - 1]?.score || 50`:
optional chaining plus JavaScript falsiness, so an empty history and a
last score of `0` both yield `50`. -/
def lastScoreOr50 (l : List ScoreDataPoint) : ℚ :=
  match l.getLast? with
  | none => 50
  | some p => if p.score = 0 then 50 else p.score

/-- The 30-day task counts consumed by `analyzeContributingFactors`. -/
structure FactorTaskStats where
  completed : Nat
  active : Nat
  total : Nat

/-- `analyzeContributingFactors`, as a function of its three query
results.  Its surrounding catch appends a fallback phrase to whatever
factors were accumulated before the failing query. -/
def analyzeContributingFactors (taskQ : Except Unit FactorTaskStats)
    (timeQ : Except Unit (Option ℚ))
    (complexityQ : Except Unit (List (Complexity × Nat)))
    (trend : Trend) : List String :=
  match taskQ with
  | .error _ => ["Unable to determine specific factors"]
  | .ok ts =>
    let completionRate : ℚ :=
      if 0 < ts.total then (ts.completed : ℚ) / (ts.total : ℚ) * 100 else 0
    let f1 : List String :=
      if trend = .declining then
        (if completionRate < 50 then ["Low task completion rate (< 50%)"] else [])
          ++ (if 5 < ts.active then ["High number of pending tasks"] else [])
      else if trend = .improving then
        (if 75 < completionRate then ["High task completion rate (> 75%)"] else [])
          ++ (if 5 < ts.completed then ["Consistently completing tasks"] else [])
      else []
    match timeQ with
    | .error _ => f1 ++ ["Unable to determine specific factors"]
    | .ok avgHoursRow =>
      let f2 : List String :=
        match avgHoursRow with
        | none => []
        | some avgHours =>
          if avgHours = 0 then []
          else if trend = .improving ∧ avgHours < 24 then
            ["Fast task completion times"]
          else if trend = .declining ∧ 72 < avgHours then
            ["Slow task completion times"]
          else []
      match complexityQ with
      | .error _ => f1 ++ f2 ++ ["Unable to determine specific factors"]
      | .ok rows =>
        let highComplexity : Nat :=
          ((rows.find? (fun r => decide (r.1 = Complexity.high))).map
            (fun r => r.2)).getD 0
        let totalCompleted : Nat := (rows.map (fun r => r.2)).sum
        let f3 : List String :=
          if trend = .improving ∧
              (totalCompleted : ℚ) * (3 / 10) < (highComplexity : ℚ) then
            ["Successfully handling complex tasks"]
          else []
        let factors := f1 ++ f2 ++ f3
        if factors.isEmpty then
          if trend = .stable then ["Consistent performance over time"]
          else if trend = .improving then
            ["General improvement in work quality"]
          else ["Performance variation detected"]
        else factors

structure PerformanceTrend where
  employeeName : String
  trend : Trend
  confidence : ℤ
  currentScore : ℚ
  predictedScore : ℚ
  dataPoints : Nat
  contributingFactors : List String
  recommendation : String

/-- `predictPerformanceTrend`, as a function of its query results: the
employee-name lookup (`null` row gives a `null` result, a failure
propagates through the rethrowing catch), the 30-day score history, and
the three factor-analysis queries. -/
def predictPerformanceTrend (employeeQ : Except Unit (Option String))
    (historyQ : Except Unit (List ScoreDataPoint))
    (taskQ : Except Unit FactorTaskStats)
    (timeQ : Except Unit (Option ℚ))
    (complexityQ : Except Unit (List (Complexity × Nat))) :
    Except Unit (Option PerformanceTrend) :=
  match employeeQ with
  | .error e => .error e
  | .ok none => .ok none
  | .ok (some employeeName) =>
    let historicalScores := getHistoricalScores historyQ
    if historicalScores.length < 4 then
      .ok (some
        { employeeName := employeeName
          trend := .stable
          confidence := 0
          currentScore := lastScoreOr50 historicalScores
          predictedScore := lastScoreOr50 historicalScores
          dataPoints := historicalScores.length
          contributingFactors :=
            ["Insufficient data for trend analysis (need 4+ scores)"]
          recommendation :=
            "Continue monitoring performance. More data needed for accurate prediction." })
    else
      let reg := calculateLinearRegression historicalScores
      let trend := classifyTrend reg.slope
      let confidence : ℤ := round (|reg.rSquared| * 100)
      let currentScore := ((historicalScores.getLast?).getD default).score
      let daysAhead : ℚ := 7
      let lastX := (((historicalScores.getLast?).getD default).date
        - historicalScores.headI.date) / msPerDay
      let predictedScore : ℚ := max 0 (min 100
        ((round (reg.slope * (lastX + daysAhead) + reg.intercept) : ℤ) : ℚ))
      let contributingFactors :=
        analyzeContributingFactors taskQ timeQ complexityQ trend
      let recommendation :=
        if trend = .declining then
          if 70 < confidence then
            "Immediate attention needed. Consider one-on-one meeting to discuss challenges and provide support."
          else "Monitor closely. May need intervention if trend continues."
        else if trend = .improving then
          "Positive trend! Consider recognizing achievements and providing growth opportunities."
        else "Performance is stable. Continue current approach and monitor for changes."
      .ok (some
        { employeeName := employeeName
          trend := trend
          confidence := confidence
          currentScore := currentScore
          predictedScore := predictedScore
          dataPoints := historicalScores.length
          contributingFactors := contributingFactors
          recommendation := recommendation })

/-! ### AssignmentRecommender (`taskassignment.service.ts`) -/

structure TaskRequirements where
  requiredSkills : List String
  complexity : Option Complexity
  department : Option String
  estimatedHours : Option ℚ

/-- The per-employee query results consumed by the recommender, plus the
employees query itself.  Each is an `Except` so that a Data Store failure
of any individual query can be modelled. -/
structure RecommenderStore where
  employeesQ : Except Unit (List Employee)
  activeTasksQ : Nat → Except Unit Nat
  latestScoreQ : Nat → Except Unit (Option ℚ)
  recentCompletionsQ : Nat → Except Unit Nat

/-- `calculateSkillsMatch`: percentage of required skills present
(case-insensitive), `100` when nothing is required. -/
def calculateSkillsMatch (employeeSkills requiredSkills : List String) : ℤ :=
  if requiredSkills.isEmpty then 100
  else
    let matchedSkills := requiredSkills.filter
      (fun required =>
        employeeSkills.any
          (fun empSkill => strToLower empSkill == strToLower required))
    round ((matchedSkills.length : ℚ) / (requiredSkills.length : ℚ) * 100)

/-- `calculateWorkloadScore`: 0 active tasks → 100, ≥ 10 → 0, otherwise
`100 - active*10`; its catch turns a query failure into the default 50. -/
def calculateWorkloadScore (activeQ : Except Unit Nat) : ℚ :=
  match activeQ with
  | .error _ => 50
  | .ok activeTasks =>
    if activeTasks = 0 then 100
    else if 10 ≤ activeTasks then 0
    else max 0 (100 - (activeTasks : ℚ) * 10)

/-- `getProductivityScore`: the latest stored score, 50 when none exists
and 50 on a query failure (caught). -/
def getProductivityScore (scoreQ : Except Unit (Option ℚ)) : ℚ :=
  match scoreQ with
  | .error _ => 50
  | .ok none => 50
  | .ok (some score) => score

/-- `calculateAvailabilityScore`: 7-day completions ≥3 → 100, ≥2 → 80,
≥1 → 60, 0 → 40; 50 on a query failure (caught). -/
def calculateAvailabilityScore (recentQ : Except Unit Nat) : ℚ :=
  match recentQ with
  | .error _ => 50
  | .ok recentCompletions =>
    if 3 ≤ recentCompletions then 100
    else if 2 ≤ recentCompletions then 80
    else if 1 ≤ recentCompletions then 60
    else 40

structure EmployeeRecommendation where
  employeeId : Nat
  employeeName : String
  email : String
  role : String
  department : String
  suitabilityScore : ℤ
  reasoning : List String
  currentWorkload : ℤ
  productivityScore : ℚ
  skillsMatch : ℤ

/-- The loop body of `recommendEmployeesForTask` for one employee:
weighted composite of skills match (0.4), workload (0.3), productivity
(0.2) and availability (0.1), with the reasoning strings accumulated in
source order. -/
def scoreEmployee (req : TaskRequirements) (st : RecommenderStore)
    (e : Employee) : EmployeeRecommendation :=
  let skillsMatch := calculateSkillsMatch e.skills req.requiredSkills
  let reasoningSkills : List String :=
    if skillsMatch = 100 then ["Has all required skills"]
    else if 75 ≤ skillsMatch then ["Has most required skills"]
    else if 50 ≤ skillsMatch then ["Has some required skills"]
    else if 0 < skillsMatch then ["Has few required skills"]
    else ["Missing required skills"]
  let workloadScore := calculateWorkloadScore (st.activeTasksQ e.id)
  let reasoningWorkload : List String :=
    if 80 ≤ workloadScore then ["Low current workload"]
    else if 50 ≤ workloadScore then ["Moderate workload"]
    else ["High current workload"]
  let productivityScore := getProductivityScore (st.latestScoreQ e.id)
  let reasoningProductivity : List String :=
    if 80 ≤ productivityScore then ["High productivity score"]
    else if 60 ≤ productivityScore then ["Good productivity score"]
    else ["Average productivity score"]
  let availabilityScore := calculateAvailabilityScore (st.recentCompletionsQ e.id)
  let reasoningAvailability : List String :=
    if 80 ≤ availabilityScore then ["Recently active"] else []
  let suitabilityScore : ℤ := round ((skillsMatch : ℚ) * (2 / 5)
    + workloadScore * (3 / 10) + productivityScore * (1 / 5)
    + availabilityScore * (1 / 10))
  let activeTasks : ℤ := round ((100 - workloadScore) / 10)
  let reasoningCapacity : List String :=
    if 10 ≤ activeTasks then ["⚠️ At maximum task capacity"] else []
  { employeeId := e.id
    employeeName := e.name
    email := e.email
    role := e.role
    department := e.department
    suitabilityScore := suitabilityScore
    reasoning := reasoningSkills ++ reasoningWorkload ++ reasoningProductivity
      ++ reasoningAvailability ++ reasoningCapacity
    currentWorkload := activeTasks
    productivityScore := productivityScore
    skillsMatch := skillsMatch }

/-- The `WHERE is_active = true` (and optional department) filter of the
employees query. -/
def activeEmployees (req : TaskRequirements) (rows : List Employee) :
    List Employee :=
  rows.filter (fun e => e.isActive &&
    (match req.department with
     | none => true
     | some d => strToLower e.department == strToLower d))

/-- `recommendEmployeesForTask`: score every active (optionally
department-filtered) employee, sort by suitability descending and return
the top 5; a failure of the employees query propagates (rethrown). -/
def recommendEmployeesForTask (req : TaskRequirements)
    (st : RecommenderStore) : Except Unit (List EmployeeRecommendation) :=
  match st.employeesQ with
  | .error e => .error e
  | .ok rows =>
    let employees := activeEmployees req rows
    if employees.isEmpty then .ok []
    else
      let recommendations := employees.map (scoreEmployee req st)
      .ok ((sortByKey (fun r => -r.suitabilityScore) recommendations).take 5)

structure ValidationResult where
  suitable : Bool
  score : ℤ
  warnings : List String
deriving DecidableEq

/-- `validateEmployeeForTask`: re-runs the recommendation, looks the
employee up in the (top-5 truncated) list, and derives warnings; its
catch converts an error into an unsuitable result. -/
def validateEmployeeForTask (employeeId : Nat) (req : TaskRequirements)
    (st : RecommenderStore) : ValidationResult :=
  match recommendEmployeesForTask req st with
  | .error _ =>
    { suitable := false, score := 0, warnings := ["Error validating employee"] }
  | .ok recommendations =>
    match recommendations.find? (fun r => r.employeeId == employeeId) with
    | none =>
      { suitable := false, score := 0,
        warnings := ["Employee not found or not active"] }
    | some r =>
      let warnings : List String :=
        (if r.skillsMatch < 50 then ["Employee missing most required skills"] else [])
          ++ (if 8 ≤ r.currentWorkload then ["Employee has high workload"] else [])
          ++ (if r.productivityScore < 40 then ["Employee has low productivity score"] else [])
      { suitable := 50 ≤ r.suitabilityScore && warnings.isEmpty
        score := r.suitabilityScore
        warnings := warnings }

/-! ### Concrete store states used by the scenario theorems -/

/-- The history of the spec's regression scenario: scores 50, 55, 60, 65
on four consecutive days. -/
def scenarioHistory : List ScoreDataPoint :=
  [⟨50, 0⟩, ⟨55, 86400000⟩, ⟨60, 172800000⟩, ⟨65, 259200000⟩]

/-- A single stored score of exactly 0 (the `productivity_scores` check
constraint allows any score in `[0, 100]`). -/
def zeroScoreHistory : List ScoreDataPoint := [⟨0, 0⟩]

/-- A requirement list with 201 entries, only the first of which is the
skill `a`. -/
def largeRequirementList : List String := "a" :: List.replicate 200 "b"

/-- An active employee row. -/
def mkActiveEmployee (i : Nat) (sk : List String) : Employee :=
  { id := i, name := "emp", email := "m", role := "r", department := "d",
    skills := sk, isActive := true }

/-- Task requirements asking for the single skill `Python`. -/
def pythonReq : TaskRequirements :=
  { requiredSkills := ["Python"], complexity := some Complexity.high,
    department := none, estimatedHours := none }

/-- Task requirements asking for nothing in particular. -/
def emptyReq : TaskRequirements :=
  { requiredSkills := [], complexity := none,
    department := none, estimatedHours := none }

/-- The employee rows of the truncation scenario: five employees who have
`Python` and one (id 6) who does not — all active. -/
def sixEmployeeRows : List Employee :=
  [mkActiveEmployee 1 ["Python"], mkActiveEmployee 2 ["Python"],
   mkActiveEmployee 3 ["Python"], mkActiveEmployee 4 ["Python"],
   mkActiveEmployee 5 ["Python"], mkActiveEmployee 6 []]

/-- Store of the truncation scenario: six active employees, everyone idle
(no active tasks, no stored score, no recent completions). -/
def sixEmployeeStore : RecommenderStore :=
  { employeesQ := .ok sixEmployeeRows
    activeTasksQ := fun _ => .ok 0
    latestScoreQ := fun _ => .ok none
    recentCompletionsQ := fun _ => .ok 0 }

/-- Store with two indistinguishable active employees (ids 1 and 2). -/
def twinStore : RecommenderStore :=
  { employeesQ := .ok [mkActiveEmployee 1 [], mkActiveEmployee 2 []]
    activeTasksQ := fun _ => .ok 0
    latestScoreQ := fun _ => .ok none
    recentCompletionsQ := fun _ => .ok 0 }

/-- Store with no employee rows at all. -/
def emptyStore : RecommenderStore :=
  { employeesQ := .ok []
    activeTasksQ := fun _ => .ok 0
    latestScoreQ := fun _ => .ok none
    recentCompletionsQ := fun _ => .ok 0 }

/-- Store in which the employees query succeeds (one active employee) but
every per-employee query fails. -/
def failingQueriesStore : RecommenderStore :=
  { employeesQ := .ok [mkActiveEmployee 1 []]
    activeTasksQ := fun _ => .error ()
    latestScoreQ := fun _ => .error ()
    recentCompletionsQ := fun _ => .error () }

/-- A completed high-complexity task finished exactly one hour after its
creation. -/
def oneHourTask : Task :=
  { status := TaskStatus.completed, complexity := Complexity.high,
    createdAt := 0, completedAt := some 3600000 }

/-- A completed task whose completion timestamp equals its creation
timestamp, so its average completion time is exactly 0 hours. -/
def instantTask : Task :=
  { status := TaskStatus.completed, complexity := Complexity.low,
    createdAt := 0, completedAt := some 0 }

/-- The degraded trend record produced for an empty history. -/
def emptyHistoryTrend : PerformanceTrend :=
  { employeeName := "emp", trend := .stable, confidence := 0,
    currentScore := 50, predictedScore := 50, dataPoints := 0,
    contributingFactors :=
      ["Insufficient data for trend analysis (need 4+ scores)"],
    recommendation :=
      "Continue monitoring performance. More data needed for accurate prediction." }

/-- The candidate record computed for the single employee of
`failingQueriesStore`: every factor that depends on a failing query is at
its default of 50. -/
def failingQueriesRec : EmployeeRecommendation :=
  { employeeId := 1, employeeName := "emp", email := "m", role := "r",
    department := "d", suitabilityScore := 70,
    reasoning := ["Has all required skills", "Moderate workload",
      "Average productivity score"],
    currentWorkload := 5, productivityScore := 50, skillsMatch := 100 }

/-- The candidate record computed for an idle employee (no active tasks,
no stored score, no recent completions) who has every required skill. -/
def idleRec (i : Nat) : EmployeeRecommendation :=
  { employeeId := i
    employeeName := "emp"
    email := "m"
    role := "r"
    department := "d"
    suitabilityScore := 84
    reasoning := ["Has all required skills", "Low current workload",
      "Average productivity score"]
    currentWorkload := 0
    productivityScore := 50
    skillsMatch := 100 }

/-- The candidate record computed for employee 6 of the truncation
scenario: idle but missing the required skill. -/
def missingSkillRec : EmployeeRecommendation :=
  { employeeId := 6
    employeeName := "emp"
    email := "m"
    role := "r"
    department := "d"
    suitabilityScore := 44
    reasoning := ["Missing required skills", "Low current workload",
      "Average productivity score"]
    currentWorkload := 0
    productivityScore := 50
    skillsMatch := 0 }

/-! ## Properties of the stable sort -/

theorem sortByKey_sorted {α : Type} (k : α → ℤ) (l : List α) :
    (sortByKey k l).Pairwise (fun a b => k a ≤ k b) := by
  haveI : IsTotal α (fun a b => k a ≤ k b) := ⟨fun a b => le_total (k a) (k b)⟩
  haveI : IsTrans α (fun a b => k a ≤ k b) :=
    ⟨fun _ _ _ hab hbc => le_trans hab hbc⟩
  exact List.sorted_insertionSort _ l

theorem sortByKey_perm {α : Type} (k : α → ℤ) (l : List α) :
    List.Perm (sortByKey k l) l :=
  List.perm_insertionSort _ l

theorem filter_key_orderedInsert {α : Type} (k : α → ℤ) (p : ℤ) (a : α)
    (l : List α) :
    (List.orderedInsert (fun x y => k x ≤ k y) a l).filter
        (fun x => decide (k x = p))
      = if k a = p then a :: l.filter (fun x => decide (k x = p))
        else l.filter (fun x => decide (k x = p)) := by
  induction l with
  | nil =>
    by_cases hap : k a = p <;> simp [List.orderedInsert, hap]
  | cons b bs ih =>
    have hins : List.orderedInsert (fun x y => k x ≤ k y) a (b :: bs)
        = if k a ≤ k b then a :: b :: bs
          else b :: List.orderedInsert (fun x y => k x ≤ k y) a bs := rfl
    rw [hins]
    by_cases hab : k a ≤ k b
    · rw [if_pos hab]
      by_cases hap : k a = p <;> by_cases hbp : k b = p <;>
        simp [List.filter_cons, hap, hbp]
    · rw [if_neg hab]
      have hba : k b < k a := lt_of_not_le hab
      rw [List.filter_cons, ih]
      by_cases hap : k a = p
      · have hbp : ¬ (k b = p) := by omega
        simp [List.filter_cons, hap, hbp]
      · by_cases hbp : k b = p <;> simp [List.filter_cons, hap, hbp]

theorem sortByKey_filter_key {α : Type} (k : α → ℤ) (p : ℤ) (l : List α) :
    (sortByKey k l).filter (fun x => decide (k x = p))
      = l.filter (fun x => decide (k x = p)) := by
  induction l with
  | nil => rfl
  | cons a as ih =>
    show (List.orderedInsert _ a (sortByKey k as)).filter _ = _
    rw [filter_key_orderedInsert]
    by_cases hap : k a = p <;> simp [hap, ih, List.filter_cons]

/-! ## Arithmetic helper lemmas -/

theorem round_mono_rat {x y : ℚ} (h : x ≤ y) : round x ≤ round y := by
  rw [round_eq, round_eq]
  exact Int.floor_le_floor (by linarith)

theorem round_strict_rat {x y : ℚ} (h : x + 1 ≤ y) : round x < round y := by
  rw [round_eq, round_eq]
  have h1 : (⌊x + 1 / 2 + 1⌋ : ℤ) = ⌊x + 1 / 2⌋ + 1 := Int.floor_add_one _
  have h2 : (⌊x + 1 / 2 + 1⌋ : ℤ) ≤ ⌊y + 1 / 2⌋ := Int.floor_le_floor (by linarith)
  omega

theorem round_hundred : round (100 : ℚ) = 100 := by
  rw [show (100 : ℚ) = ((100 : ℤ) : ℚ) by norm_num, round_intCast]

theorem round_eval {x : ℚ} {n : ℤ} (h1 : (n : ℚ) ≤ x + 1 / 2)
    (h2 : x + 1 / 2 < n + 1) : round x = n := by
  rw [round_eq, Int.floor_eq_iff]
  exact ⟨h1, h2⟩

theorem round_bounds {x : ℚ} (h0 : 0 ≤ x) (h1 : x ≤ 100) :
    0 ≤ round x ∧ round x ≤ 100 := by
  constructor
  · have := round_mono_rat h0
    simpa using this
  · have := round_mono_rat h1
    simpa [round_hundred] using this

theorem clamp0100_bounds (x : ℚ) : 0 ≤ clamp0100 x ∧ clamp0100 x ≤ 100 := by
  unfold clamp0100
  constructor
  · exact le_max_left _ _
  · exact max_le (by norm_num) (min_le_left _ _)

theorem round2_bounds {x : ℚ} (h0 : 0 ≤ x) (h1 : x ≤ 100) :
    0 ≤ round2 x ∧ round2 x ≤ 100 := by
  unfold round2
  have hb : 0 ≤ round (x * 100) ∧ round (x * 100) ≤ 10000 := by
    constructor
    · have := round_mono_rat (show (0 : ℚ) ≤ x * 100 by positivity)
      simpa using this
    · have := round_mono_rat (show x * 100 ≤ 10000 by linarith)
      have h4 : round (10000 : ℚ) = 10000 := by
        rw [show (10000 : ℚ) = ((10000 : ℤ) : ℚ) by norm_num, round_intCast]
      omega
  constructor
  · exact div_nonneg (by exact_mod_cast hb.1) (by norm_num)
  · rw [div_le_iff₀ (by norm_num : (0:ℚ) < 100)]
    have h5 : ((round (x * 100) : ℤ) : ℚ) ≤ 10000 := by exact_mod_cast hb.2
    linarith

theorem filter_length_mono {α : Type} (p q : α → Bool) (l : List α)
    (h : ∀ a ∈ l, q a = true → p a = true) :
    (l.filter q).length ≤ (l.filter p).length := by
  induction l with
  | nil => simp
  | cons a as ih =>
    have ih' := ih (fun a ha => h a (List.mem_cons_of_mem _ ha))
    by_cases hq : q a = true
    · have hp := h a (List.mem_cons_self _ _) hq
      simp [List.filter_cons, hq, hp]
      omega
    · by_cases hp : p a = true <;>
        simp [List.filter_cons, hq, hp] <;> omega

theorem filter_length_strict {α : Type} (p q : α → Bool) (l : List α)
    (h : ∀ a ∈ l, q a = true → p a = true) (a₀ : α) (ha₀ : a₀ ∈ l)
    (hp₀ : p a₀ = true) (hq₀ : q a₀ = false) :
    (l.filter q).length < (l.filter p).length := by
  induction l with
  | nil => simp at ha₀
  | cons a as ih =>
    have h' : ∀ b ∈ as, q b = true → p b = true :=
      fun b hb => h b (List.mem_cons_of_mem _ hb)
    rcases List.mem_cons.mp ha₀ with rfl | hmem
    · have hle := filter_length_mono p q as h'
      simp [List.filter_cons, hq₀, hp₀]
      omega
    · have hlt := ih h' hmem
      by_cases hq : q a = true
      · have hp := h a (List.mem_cons_self _ _) hq
        simp [List.filter_cons, hq, hp]
        omega
      · by_cases hp : p a = true <;>
          simp [List.filter_cons, hq, hp] <;> omega

theorem getLast?_mem_list {α : Type} {l : List α} {a : α}
    (h : l.getLast? = some a) : a ∈ l := by
  rcases List.mem_getLast?_eq_getLast (show a ∈ l.getLast? by rw [h]; rfl)
    with ⟨hne, heq⟩
  rw [heq]
  exact List.getLast_mem hne

/-! ## Unfolding lemmas for the service entry points -/

theorem predict_error (historyQ : Except Unit (List ScoreDataPoint))
    (taskQ : Except Unit FactorTaskStats) (timeQ : Except Unit (Option ℚ))
    (complexityQ : Except Unit (List (Complexity × Nat))) :
    predictPerformanceTrend (.error ()) historyQ taskQ timeQ complexityQ
      = .error () := rfl

theorem predict_insufficient (name : String)
    (historyQ : Except Unit (List ScoreDataPoint))
    (taskQ : Except Unit FactorTaskStats) (timeQ : Except Unit (Option ℚ))
    (complexityQ : Except Unit (List (Complexity × Nat)))
    (h : (getHistoricalScores historyQ).length < 4) :
    predictPerformanceTrend (.ok (some name)) historyQ taskQ timeQ complexityQ
      = .ok (some
        { employeeName := name
          trend := .stable
          confidence := 0
          currentScore := lastScoreOr50 (getHistoricalScores historyQ)
          predictedScore := lastScoreOr50 (getHistoricalScores historyQ)
          dataPoints := (getHistoricalScores historyQ).length
          contributingFactors :=
            ["Insufficient data for trend analysis (need 4+ scores)"]
          recommendation :=
            "Continue monitoring performance. More data needed for accurate prediction." }) := by
  simp only [predictPerformanceTrend]
  rw [if_pos h]

theorem predict_regression (name : String)
    (historyQ : Except Unit (List ScoreDataPoint))
    (taskQ : Except Unit FactorTaskStats) (timeQ : Except Unit (Option ℚ))
    (complexityQ : Except Unit (List (Complexity × Nat)))
    (h : ¬ (getHistoricalScores historyQ).length < 4) :
    predictPerformanceTrend (.ok (some name)) historyQ taskQ timeQ complexityQ
      = .ok (some
        { employeeName := name
          trend := classifyTrend
            (calculateLinearRegression (getHistoricalScores historyQ)).slope
          confidence := round
            (|(calculateLinearRegression (getHistoricalScores historyQ)).rSquared| * 100)
          currentScore :=
            (((getHistoricalScores historyQ).getLast?).getD default).score
          predictedScore := max 0 (min 100
            ((round ((calculateLinearRegression (getHistoricalScores historyQ)).slope
                * (((((getHistoricalScores historyQ).getLast?).getD default).date
                    - (getHistoricalScores historyQ).headI.date) / msPerDay + 7)
              + (calculateLinearRegression (getHistoricalScores historyQ)).intercept) : ℤ) : ℚ))
          dataPoints := (getHistoricalScores historyQ).length
          contributingFactors := analyzeContributingFactors taskQ timeQ complexityQ
            (classifyTrend
              (calculateLinearRegression (getHistoricalScores historyQ)).slope)
          recommendation :=
            if classifyTrend
                (calculateLinearRegression (getHistoricalScores historyQ)).slope
                = .declining then
              if 70 < round
                  (|(calculateLinearRegression (getHistoricalScores historyQ)).rSquared| * 100) then
                "Immediate attention needed. Consider one-on-one meeting to discuss challenges and provide support."
              else "Monitor closely. May need intervention if trend continues."
            else if classifyTrend
                (calculateLinearRegression (getHistoricalScores historyQ)).slope
                = .improving then
              "Positive trend! Consider recognizing achievements and providing growth opportunities."
            else
              "Performance is stable. Continue current approach and monitor for changes." }) := by
  simp only [predictPerformanceTrend]
  rw [if_neg h]

theorem recommend_ok (req : TaskRequirements) (st : RecommenderStore)
    (rows : List Employee) (h : st.employeesQ = .ok rows) :
    recommendEmployeesForTask req st
      = if (activeEmployees req rows).isEmpty then .ok []
        else .ok ((sortByKey (fun r => -r.suitabilityScore)
          ((activeEmployees req rows).map (scoreEmployee req st))).take 5) := by
  unfold recommendEmployeesForTask
  rw [h]

/-! ## Claim C1 -/

/-- C1.  `calculateScore` satisfies its two-branch postcondition: with an
empty task-query result it returns the baseline record (score exactly 50,
completion rate, average completion time and average complexity all 0);
with at least one task it returns a score equal to
`clamp(0,100, completionRate*0.4 + completionTimeScore*0.3 + complexityScore*0.3)`
rounded to two decimals, where `completionRate = completed/total*100`,
`completionTimeScore = clamp(0,100,(24/avgHours)*100)` and
`complexityScore = (avgComplexity/2)*100` with complexity weights
low = 1, medium = 1.5, high = 2 — and the returned record is the one
appended to the score history. -/
theorem c1_calculateScore_postcondition (tasks : List Task)
    (history : List ProductivityScore) :
    (tasks.length = 0 →
      calculateScore tasks =
        { score := 50, completionRate := 0,
          averageCompletionTime := 0, taskComplexityHandled := 0 }) ∧
    (tasks.length ≠ 0 →
      (calculateScore tasks).score =
        round2 (clamp0100
          (((completedOf tasks).length : ℚ) / (tasks.length : ℚ) * 100 * (2 / 5)
            + clamp0100 (24 / orElseIfZero (avgHoursOpt tasks) 24 * 100) * (3 / 10)
            + orElseIfZero (avgComplexityOpt tasks) 1 / 2 * 100 * (3 / 10)))) ∧
    calculateScoreAndStore history tasks
      = (calculateScore tasks, history ++ [calculateScore tasks]) := by
  refine ⟨fun h => ?_, fun h => ?_, rfl⟩
  · simp only [calculateScore]
    rw [if_pos h]
  · simp only [calculateScore]
    rw [if_neg h]

/-- Witness for C1: both branches evaluated at concrete task lists (the
one-task list holds a single high-complexity task completed in 1 hour). -/
theorem c1_calculateScore_postcondition_witness :
    calculateScore [] =
      { score := 50, completionRate := 0,
        averageCompletionTime := 0, taskComplexityHandled := 0 } ∧
    (calculateScore [oneHourTask]).score = 100 := by
  constructor
  · exact (c1_calculateScore_postcondition [] []).1 rfl
  · rw [(c1_calculateScore_postcondition [oneHourTask] []).2.1 (by decide)]
    have hcomp : completedOf [oneHourTask] = [oneHourTask] := by
      simp [completedOf, oneHourTask]
    have hH : avgHoursOpt [oneHourTask] = some 1 := by
      simp [avgHoursOpt, completedOf, oneHourTask, msPerHour]
    have hC : avgComplexityOpt [oneHourTask] = some 2 := by
      simp [avgComplexityOpt, completedOf, oneHourTask, complexityWeight]
    rw [hcomp, hH, hC]
    have h1 : orElseIfZero (some 1) 24 = 1 := by norm_num [orElseIfZero]
    have h2 : orElseIfZero (some 2) 1 = 2 := by norm_num [orElseIfZero]
    rw [h1, h2]
    have h3 : clamp0100 (24 / 1 * 100) = 100 := by
      rw [clamp0100]
      norm_num [min_def, max_def]
    rw [h3]
    have h4 : (([oneHourTask] : List Task).length : ℚ)
        / (([oneHourTask] : List Task).length : ℚ) * 100 * (2 / 5)
        + (100 : ℚ) * (3 / 10) + (2 : ℚ) / 2 * 100 * (3 / 10) = 100 := by
      norm_num
    rw [h4, clamp0100]
    rw [show min (100 : ℚ) 100 = 100 from min_self 100,
      show max (0 : ℚ) 100 = 100 by rw [max_eq_right]; norm_num]
    rw [round2,
      show ((100 : ℚ) * 100) = ((10000 : ℤ) : ℚ) by norm_num, round_intCast]
    norm_num

/-! ## Claim C2 -/

theorem calculateSkillsMatch_bounds (employeeSkills requiredSkills : List String) :
    0 ≤ calculateSkillsMatch employeeSkills requiredSkills ∧
      calculateSkillsMatch employeeSkills requiredSkills ≤ 100 := by
  unfold calculateSkillsMatch
  by_cases h : requiredSkills.isEmpty
  · simp [h]
  · rw [if_neg h]
    have hlen : 0 < requiredSkills.length := by
      cases requiredSkills with
      | nil => simp at h
      | cons a l => simp
    have hle := requiredSkills.length_filter_le
      (fun required => employeeSkills.any
        (fun empSkill => strToLower empSkill == strToLower required))
    have hpos : (0 : ℚ) < (requiredSkills.length : ℚ) := by exact_mod_cast hlen
    apply round_bounds
    · positivity
    · rw [div_mul_eq_mul_div, div_le_iff₀ hpos]
      have : ((requiredSkills.filter (fun required => employeeSkills.any
          (fun empSkill => strToLower empSkill == strToLower required))).length : ℚ)
          ≤ (requiredSkills.length : ℚ) := by exact_mod_cast hle
      linarith

theorem calculateWorkloadScore_bounds (q : Except Unit Nat) :
    0 ≤ calculateWorkloadScore q ∧ calculateWorkloadScore q ≤ 100 := by
  rcases q with e | n
  · simp only [calculateWorkloadScore]
    norm_num
  · simp only [calculateWorkloadScore]
    by_cases h0 : n = 0
    · rw [if_pos h0]
      norm_num
    · rw [if_neg h0]
      by_cases h10 : 10 ≤ n
      · rw [if_pos h10]
        norm_num
      · rw [if_neg h10]
        refine ⟨le_max_left _ _, max_le (by norm_num) ?_⟩
        have : (0 : ℚ) ≤ (n : ℚ) * 10 := by positivity
        linarith

theorem getProductivityScore_bounds (q : Except Unit (Option ℚ))
    (h : ∀ s, q = .ok (some s) → 0 ≤ s ∧ s ≤ 100) :
    0 ≤ getProductivityScore q ∧ getProductivityScore q ≤ 100 := by
  rcases q with e | os
  · simp only [getProductivityScore]
    norm_num
  · rcases os with _ | s
    · simp only [getProductivityScore]
      norm_num
    · simpa only [getProductivityScore] using h s rfl

theorem calculateAvailabilityScore_bounds (q : Except Unit Nat) :
    0 ≤ calculateAvailabilityScore q ∧ calculateAvailabilityScore q ≤ 100 := by
  rcases q with e | n
  · simp only [calculateAvailabilityScore]
    norm_num
  · simp only [calculateAvailabilityScore]
    by_cases h3 : 3 ≤ n
    · rw [if_pos h3]
      norm_num
    · rw [if_neg h3]
      by_cases h2 : 2 ≤ n
      · rw [if_pos h2]
        norm_num
      · rw [if_neg h2]
        by_cases h1 : 1 ≤ n
        · rw [if_pos h1]
          norm_num
        · rw [if_neg h1]
          norm_num

theorem scoreEmployee_suitability_bounds (req : TaskRequirements)
    (st : RecommenderStore) (e : Employee)
    (h : ∀ s, st.latestScoreQ e.id = .ok (some s) → 0 ≤ s ∧ s ≤ 100) :
    0 ≤ (scoreEmployee req st e).suitabilityScore ∧
      (scoreEmployee req st e).suitabilityScore ≤ 100 := by
  have hsm := calculateSkillsMatch_bounds e.skills req.requiredSkills
  have hw := calculateWorkloadScore_bounds (st.activeTasksQ e.id)
  have hp := getProductivityScore_bounds (st.latestScoreQ e.id) h
  have ha := calculateAvailabilityScore_bounds (st.recentCompletionsQ e.id)
  have hsm' : (0 : ℚ) ≤ (calculateSkillsMatch e.skills req.requiredSkills : ℚ)
      ∧ (calculateSkillsMatch e.skills req.requiredSkills : ℚ) ≤ 100 :=
    ⟨by exact_mod_cast hsm.1, by exact_mod_cast hsm.2⟩
  simp only [scoreEmployee]
  apply round_bounds
  · linarith [hsm'.1, hw.1, hp.1, ha.1]
  · linarith [hsm'.2, hw.2, hp.2, ha.2]

/-- C2.  Every published score lies in `[0, 100]`: the score of every
record produced by `calculateScore`, the `predictedScore` of every
non-null `predictPerformanceTrend` result (assuming every stored score in
the 30-day history is in `[0, 100]`), and the `suitabilityScore` of every
candidate returned by `recommendEmployeesForTask` (assuming every stored
latest score is in `[0, 100]`). -/
theorem c2_scores_in_range :
    (∀ tasks : List Task,
      0 ≤ (calculateScore tasks).score ∧ (calculateScore tasks).score ≤ 100) ∧
    (∀ (employeeQ : Except Unit (Option String))
        (historyQ : Except Unit (List ScoreDataPoint))
        (taskQ : Except Unit FactorTaskStats) (timeQ : Except Unit (Option ℚ))
        (complexityQ : Except Unit (List (Complexity × Nat)))
        (t : PerformanceTrend),
      (∀ p ∈ getHistoricalScores historyQ, 0 ≤ p.score ∧ p.score ≤ 100) →
      predictPerformanceTrend employeeQ historyQ taskQ timeQ complexityQ
        = .ok (some t) →
      0 ≤ t.predictedScore ∧ t.predictedScore ≤ 100) ∧
    (∀ (req : TaskRequirements) (st : RecommenderStore)
        (l : List EmployeeRecommendation),
      (∀ i s, st.latestScoreQ i = .ok (some s) → 0 ≤ s ∧ s ≤ 100) →
      recommendEmployeesForTask req st = .ok l →
      ∀ r ∈ l, 0 ≤ r.suitabilityScore ∧ r.suitabilityScore ≤ 100) := by
  refine ⟨fun tasks => ?_, ?_, ?_⟩
  · by_cases h : tasks.length = 0
    · simp only [calculateScore]
      rw [if_pos h]
      norm_num
    · simp only [calculateScore]
      rw [if_neg h]
      exact round2_bounds (clamp0100_bounds _).1 (clamp0100_bounds _).2
  · intro employeeQ historyQ taskQ timeQ complexityQ t hrange hres
    rcases employeeQ with e | oname
    · rw [predict_error] at hres
      exact absurd hres (by simp)
    · rcases oname with _ | name
      · exact absurd hres (by simp [predictPerformanceTrend])
      · by_cases hlen : (getHistoricalScores historyQ).length < 4
        · rw [predict_insufficient name historyQ taskQ timeQ complexityQ hlen]
            at hres
          simp only [Except.ok.injEq, Option.some.injEq] at hres
          subst hres
          simp only [lastScoreOr50]
          rcases hlast : (getHistoricalScores historyQ).getLast? with _ | p
          · norm_num
          · dsimp only
            by_cases hz : p.score = 0
            · rw [if_pos hz]
              norm_num
            · rw [if_neg hz]
              exact hrange p (getLast?_mem_list hlast)
        · rw [predict_regression name historyQ taskQ timeQ complexityQ hlen]
            at hres
          simp only [Except.ok.injEq, Option.some.injEq] at hres
          subst hres
          refine ⟨le_max_left _ _, max_le (by norm_num) (min_le_left _ _)⟩
  · intro req st l hstore hres
    rcases hq : st.employeesQ with e | rows
    · unfold recommendEmployeesForTask at hres
      rw [hq] at hres
      exact absurd hres (by simp)
    · rw [recommend_ok req st rows hq] at hres
      by_cases hemp : (activeEmployees req rows).isEmpty
      · rw [if_pos hemp] at hres
        simp only [Except.ok.injEq] at hres
        subst hres
        intro r hr
        simp at hr
      · rw [if_neg hemp] at hres
        simp only [Except.ok.injEq] at hres
        subst hres
        intro r hr
        have hr1 : r ∈ sortByKey (fun r => -r.suitabilityScore)
            ((activeEmployees req rows).map (scoreEmployee req st)) :=
          List.mem_of_mem_take hr
        have hr2 : r ∈ (activeEmployees req rows).map (scoreEmployee req st) :=
          (sortByKey_perm _ _).mem_iff.mp hr1
        rcases List.mem_map.mp hr2 with ⟨e, _, rfl⟩
        exact scoreEmployee_suitability_bounds req st e (fun s => hstore e.id s)

/-- Witness for C2: the range hypothesis and the result equation are
discharged at a concrete (empty) history. -/
theorem c2_scores_in_range_witness :
    0 ≤ emptyHistoryTrend.predictedScore ∧
      emptyHistoryTrend.predictedScore ≤ 100 := by
  refine (c2_scores_in_range).2.1 (.ok (some "emp")) (.ok []) (.ok ⟨0, 0, 0⟩)
    (.ok none) (.ok []) emptyHistoryTrend ?_ ?_
  · intro p hp
    simp [getHistoricalScores] at hp
  · rfl

/-! ## Claim C3 -/

/-- Counterexample to C3.  The claim says a failure of the score-history
query inside `predictPerformanceTrend`, and failures of the
workload/productivity/availability queries inside
`recommendEmployeesForTask`, surface as errors to the caller.  In fact
both calls succeed: the failed history query is replaced by an empty
history (yielding the degraded trend result) and the failed per-employee
queries are replaced by default scores of 50. -/
theorem c3_counterexample :
    predictPerformanceTrend (.ok (some "emp")) (.error ())
      (.ok ⟨0, 0, 0⟩) (.ok none) (.ok []) = .ok (some emptyHistoryTrend) ∧
    recommendEmployeesForTask emptyReq failingQueriesStore
      = .ok [failingQueriesRec] := by
  constructor
  · rw [predict_insufficient "emp" (.error ()) _ _ _
      (by simp [getHistoricalScores])]
    simp [getHistoricalScores, lastScoreOr50, emptyHistoryTrend]
  · have hs : scoreEmployee emptyReq failingQueriesStore (mkActiveEmployee 1 [])
        = failingQueriesRec := by
      simp [scoreEmployee, emptyReq, failingQueriesStore, mkActiveEmployee,
        calculateSkillsMatch, calculateWorkloadScore, getProductivityScore,
        calculateAvailabilityScore, failingQueriesRec]
      norm_num [round_ofNat]
    rw [recommend_ok emptyReq failingQueriesStore [mkActiveEmployee 1 []] rfl]
    have hact : activeEmployees emptyReq [mkActiveEmployee 1 []]
        = [mkActiveEmployee 1 []] := by
      simp [activeEmployees, emptyReq, mkActiveEmployee]
    rw [hact]
    simp [List.map_cons, hs, sortByKey, List.insertionSort, List.orderedInsert]

/-- C3 (amended).  Failures of the top-level queries do propagate
unchanged: an employee-lookup failure propagates out of
`predictPerformanceTrend` and an employees-query failure propagates out
of `recommendEmployeesForTask`.  But a failure of the score-history query
is replaced by an empty history (the call still succeeds, degraded), and
failures of the workload, productivity and availability queries are
replaced by the default score 50. -/
theorem c3_error_handling :
    (∀ (historyQ : Except Unit (List ScoreDataPoint))
        (taskQ : Except Unit FactorTaskStats) (timeQ : Except Unit (Option ℚ))
        (complexityQ : Except Unit (List (Complexity × Nat))),
      predictPerformanceTrend (.error ()) historyQ taskQ timeQ complexityQ
        = .error ()) ∧
    (∀ (name : String) (taskQ : Except Unit FactorTaskStats)
        (timeQ : Except Unit (Option ℚ))
        (complexityQ : Except Unit (List (Complexity × Nat))),
      predictPerformanceTrend (.ok (some name)) (.error ()) taskQ timeQ complexityQ
        = predictPerformanceTrend (.ok (some name)) (.ok []) taskQ timeQ complexityQ) ∧
    (∀ (req : TaskRequirements) (st : RecommenderStore) (e : Unit),
      st.employeesQ = .error e → recommendEmployeesForTask req st = .error e) ∧
    (calculateWorkloadScore (.error ()) = 50 ∧
      getProductivityScore (.error ()) = 50 ∧
      calculateAvailabilityScore (.error ()) = 50) := by
  refine ⟨fun _ _ _ _ => rfl, fun _ _ _ _ => rfl, ?_, rfl, rfl, rfl⟩
  intro req st e h
  unfold recommendEmployeesForTask
  rw [h]

/-- Witness for C3 (amended): the employees-query failure propagates at a
concrete store. -/
theorem c3_error_handling_witness :
    recommendEmployeesForTask emptyReq
      { employeesQ := .error (), activeTasksQ := fun _ => .ok 0,
        latestScoreQ := fun _ => .ok none,
        recentCompletionsQ := fun _ => .ok 0 }
      = .error () :=
  (c3_error_handling).2.2.1 emptyReq
    { employeesQ := .error (), activeTasksQ := fun _ => .ok 0,
      latestScoreQ := fun _ => .ok none,
      recentCompletionsQ := fun _ => .ok 0 } () rfl

/-! ## Claim C4 -/

/-- Counterexample to C4.  For an existing employee whose 30-day history
holds a single record with score exactly 0 (allowed by the
`productivity_scores` check constraint), the degraded result reports
`currentScore = predictedScore = 50`, not the last known score 0: the
source computes `...?.score || 50` and a score of 0 is falsy. -/
theorem c4_counterexample :
    zeroScoreHistory.getLast? = some ⟨0, 0⟩ ∧
    predictPerformanceTrend (.ok (some "emp")) (.ok zeroScoreHistory)
        (.ok ⟨0, 0, 0⟩) (.ok none) (.ok [])
      = .ok (some
        { employeeName := "emp", trend := .stable, confidence := 0,
          currentScore := 50, predictedScore := 50, dataPoints := 1,
          contributingFactors :=
            ["Insufficient data for trend analysis (need 4+ scores)"],
          recommendation :=
            "Continue monitoring performance. More data needed for accurate prediction." }) ∧
    (50 : ℚ) ≠ 0 := by
  refine ⟨rfl, ?_, by norm_num⟩
  rw [predict_insufficient "emp" (.ok zeroScoreHistory) _ _ _
    (by simp [getHistoricalScores, zeroScoreHistory])]
  simp [getHistoricalScores, lastScoreOr50, zeroScoreHistory]

/-- C4 (amended).  For every employee that exists, whenever the 30-day
history has fewer than 4 points, `predictPerformanceTrend` returns (no
error) the degraded result: trend stable, confidence 0,
`currentScore = predictedScore =` the last known score when that score is
nonzero, and 50 when there is no history or the last known score is 0
(the JavaScript falsy default), with the insufficient-data factor and the
monitoring recommendation. -/
theorem c4_insufficient_data_degraded (name : String)
    (historyQ : Except Unit (List ScoreDataPoint))
    (taskQ : Except Unit FactorTaskStats) (timeQ : Except Unit (Option ℚ))
    (complexityQ : Except Unit (List (Complexity × Nat)))
    (h : (getHistoricalScores historyQ).length < 4) :
    predictPerformanceTrend (.ok (some name)) historyQ taskQ timeQ complexityQ
      = .ok (some
        { employeeName := name, trend := .stable, confidence := 0,
          currentScore := lastScoreOr50 (getHistoricalScores historyQ),
          predictedScore := lastScoreOr50 (getHistoricalScores historyQ),
          dataPoints := (getHistoricalScores historyQ).length,
          contributingFactors :=
            ["Insufficient data for trend analysis (need 4+ scores)"],
          recommendation :=
            "Continue monitoring performance. More data needed for accurate prediction." }) ∧
    (∀ p, (getHistoricalScores historyQ).getLast? = some p → p.score ≠ 0 →
      lastScoreOr50 (getHistoricalScores historyQ) = p.score) ∧
    ((getHistoricalScores historyQ).getLast? = none →
      lastScoreOr50 (getHistoricalScores historyQ) = 50) ∧
    (∀ p, (getHistoricalScores historyQ).getLast? = some p → p.score = 0 →
      lastScoreOr50 (getHistoricalScores historyQ) = 50) := by
  refine ⟨predict_insufficient name historyQ taskQ timeQ complexityQ h,
    ?_, ?_, ?_⟩
  · intro p hp hz
    simp [lastScoreOr50, hp, hz]
  · intro hp
    simp [lastScoreOr50, hp]
  · intro p hp hz
    simp [lastScoreOr50, hp, hz]

/-- Witness for C4 (amended): a one-point history with nonzero last score
30 yields the degraded result carrying 30. -/
theorem c4_insufficient_data_degraded_witness :
    predictPerformanceTrend (.ok (some "emp"))
        (.ok [({ score := 30, date := 0 } : ScoreDataPoint)])
        (.ok ⟨0, 0, 0⟩) (.ok none) (.ok [])
      = .ok (some
        { employeeName := "emp", trend := .stable, confidence := 0,
          currentScore := 30, predictedScore := 30, dataPoints := 1,
          contributingFactors :=
            ["Insufficient data for trend analysis (need 4+ scores)"],
          recommendation :=
            "Continue monitoring performance. More data needed for accurate prediction." }) := by
  have h := (c4_insufficient_data_degraded "emp"
    (.ok [({ score := 30, date := 0 } : ScoreDataPoint)])
    (.ok ⟨0, 0, 0⟩) (.ok none) (.ok [])
    (by simp [getHistoricalScores])).1
  rw [h]
  simp [getHistoricalScores, lastScoreOr50]

/-! ## Claim C5 -/

/-- C5.  Trend classification is a pure function of the fitted slope
(improving above 0.5, declining below −0.5, stable otherwise), and on the
spec scenario of scores 50, 55, 60, 65 on four consecutive days the
regression has slope 5 per day and a perfect fit R² = 1, so the employee
is classified improving with confidence `round(|R²|·100) = 100`. -/
theorem c5_trend_classification_scenario :
    (∀ slope : ℚ, classifyTrend slope =
      if slope > 1 / 2 then Trend.improving
      else if slope < -(1 / 2) then Trend.declining
      else Trend.stable) ∧
    (calculateLinearRegression scenarioHistory).slope = 5 ∧
    (calculateLinearRegression scenarioHistory).rSquared = 1 ∧
    predictPerformanceTrend (.ok (some "emp")) (.ok scenarioHistory)
        (.ok ⟨0, 0, 0⟩) (.ok none) (.ok [])
      = .ok (some
        { employeeName := "emp", trend := .improving, confidence := 100,
          currentScore := 65, predictedScore := 100, dataPoints := 4,
          contributingFactors := ["General improvement in work quality"],
          recommendation :=
            "Positive trend! Consider recognizing achievements and providing growth opportunities." }) := by
  have hreg : calculateLinearRegression scenarioHistory =
      { slope := 5, intercept := 50, rSquared := 1 } := by
    simp [calculateLinearRegression, scenarioHistory, msPerDay]
    norm_num
  refine ⟨fun slope => rfl, by rw [hreg], by rw [hreg], ?_⟩
  rw [predict_regression "emp" (.ok scenarioHistory) _ _ _
    (by simp [getHistoricalScores, scenarioHistory])]
  simp only [getHistoricalScores]
  simp only [hreg]
  have himp : classifyTrend 5 = Trend.improving := by
    rw [classifyTrend]
    norm_num
  simp only [himp]
  simp only [Except.ok.injEq, Option.some.injEq, PerformanceTrend.mk.injEq]
  refine ⟨trivial, trivial, ?_, ?_, ?_, by simp [scenarioHistory], ?_, by simp⟩
  · rw [abs_one, one_mul, round_hundred]
  · simp [scenarioHistory]
  · have hx : ((scenarioHistory.getLast?.getD default).date
        - scenarioHistory.headI.date) / msPerDay = 3 := by
      simp [scenarioHistory, List.headI, msPerDay]
      norm_num
    rw [hx]
    rw [show (5 : ℚ) * (3 + 7) + 50 = ((100 : ℤ) : ℚ) by norm_num, round_intCast]
    norm_num [min_def, max_def]
  · simp [analyzeContributingFactors]

/-! ## Claim C6 -/

/-- C6 (amended).  Adding a previously-missing required skill to an
employee's skill set never increases the skill-gap score
`round(missing/required*100)`, and strictly decreases it whenever the
requirement list has at most 100 skills; for longer requirement lists the
rounded score can stay equal at a nonzero value (see the counterexample).
The first conjunct ties `skillGapScoreOf` to the score returned by
`calculateEmployeeSkillGap`. -/
theorem c6_skill_gap_monotonic (current required : List String) (s : String)
    (hmem : s ∈ required) (hmiss : hasSkill current s = false) :
    (∀ (emp : Employee) (g : EmployeeSkillGap),
      calculateEmployeeSkillGap (.ok (some emp)) required = .ok (some g) →
      g.skillGapScore = skillGapScoreOf emp.skills required) ∧
    skillGapScoreOf (current ++ [s]) required ≤ skillGapScoreOf current required ∧
    (required.length ≤ 100 →
      skillGapScoreOf (current ++ [s]) required < skillGapScoreOf current required) := by
  have hn : 0 < required.length := List.length_pos_of_mem hmem
  have hnQ : (0 : ℚ) < (required.length : ℚ) := by exact_mod_cast hn
  have himp : ∀ r ∈ required,
      (! hasSkill (current ++ [s]) r) = true → (! hasSkill current r) = true := by
    intro r _ hq
    simp only [Bool.not_eq_true', hasSkill, List.any_append] at hq ⊢
    exact (Bool.or_eq_false_iff.mp hq).1
  have hq₀ : (! hasSkill (current ++ [s]) s) = false := by
    simp [hasSkill, List.any_append]
  have hp₀ : (! hasSkill current s) = true := by
    simp [hmiss]
  have hmono := filter_length_mono (fun r => ! hasSkill current r)
    (fun r => ! hasSkill (current ++ [s]) r) required himp
  have hstrict := filter_length_strict (fun r => ! hasSkill current r)
    (fun r => ! hasSkill (current ++ [s]) r) required himp s hmem hp₀ hq₀
  refine ⟨?_, ?_, ?_⟩
  · intro emp g h
    simp only [calculateEmployeeSkillGap, Except.ok.injEq, Option.some.injEq] at h
    subst h
    rfl
  · simp only [skillGapScoreOf]
    rw [if_pos hn, if_pos hn]
    apply round_mono_rat
    have hm : ((required.filter (fun r => ! hasSkill (current ++ [s]) r)).length : ℚ)
        ≤ ((required.filter (fun r => ! hasSkill current r)).length : ℚ) := by
      exact_mod_cast hmono
    rw [div_mul_eq_mul_div, div_mul_eq_mul_div]
    exact (div_le_div_iff_of_pos_right hnQ).mpr (by linarith)
  · intro h100
    simp only [skillGapScoreOf]
    rw [if_pos hn, if_pos hn]
    apply round_strict_rat
    have hm1 : ((required.filter (fun r => ! hasSkill (current ++ [s]) r)).length : ℚ) + 1
        ≤ ((required.filter (fun r => ! hasSkill current r)).length : ℚ) := by
      exact_mod_cast hstrict
    have h100Q : (required.length : ℚ) ≤ 100 := by exact_mod_cast h100
    rw [div_mul_eq_mul_div, div_mul_eq_mul_div]
    rw [div_add' _ _ _ hnQ.ne']
    refine (div_le_div_iff_of_pos_right hnQ).mpr ?_
    nlinarith [hm1, h100Q, hnQ]

set_option maxRecDepth 40000 in
/-- Counterexample to C6.  With 201 required skills (`a` and 200 copies
of `b`) and no current skills, the score is `round(201/201*100) = 100`;
after adding the previously-missing required skill `a` it is
`round(200/201*100) = 100` — unchanged, yet not 0, refuting "strictly
decreases or leaves equal only at 0". -/
theorem c6_counterexample :
    ("a" ∈ largeRequirementList) ∧
    hasSkill [] "a" = false ∧
    skillGapScoreOf [] largeRequirementList = 100 ∧
    skillGapScoreOf ["a"] largeRequirementList = 100 ∧
    (100 : ℤ) ≠ 0 := by
  have hlen : largeRequirementList.length = 201 := by
    simp [largeRequirementList, List.length_replicate]
  have hfilter1 : largeRequirementList.filter (fun r => ! hasSkill [] r)
      = largeRequirementList := by decide
  have hfilter2 : largeRequirementList.filter (fun r => ! hasSkill ["a"] r)
      = List.replicate 200 "b" := by decide
  refine ⟨by decide, by decide, ?_, ?_, by decide⟩
  · simp only [skillGapScoreOf]
    rw [if_pos (by rw [hlen]; norm_num), hfilter1, hlen]
    have : ((201 : ℕ) : ℚ) / ((201 : ℕ) : ℚ) * 100 = ((100 : ℤ) : ℚ) := by
      norm_num
    rw [this, round_intCast]
  · simp only [skillGapScoreOf]
    rw [if_pos (by rw [hlen]; norm_num), hfilter2, hlen,
      List.length_replicate]
    apply round_eval
    · norm_num
    · norm_num

/-- Witness for C6 (amended): on a 2-skill requirement list, adding the
missing skill strictly decreases the score. -/
theorem c6_skill_gap_monotonic_witness :
    skillGapScoreOf (["x"] ++ ["y"]) ["x", "y"] < skillGapScoreOf ["x"] ["x", "y"] :=
  (c6_skill_gap_monotonic ["x"] ["x", "y"] "y" (by decide) (by decide)).2.2
    (by decide)

/-! ## Claim C7 -/

/-- C7.  Whenever `calculateEmployeeSkillGap` returns a result, its
`missingSkills` list is sorted by ascending priority severity (critical,
high, medium, low), and for every priority level the entries of that
level appear exactly in the original order of the role's requirement
list (the order in which the accumulation loop emits them). -/
theorem c7_missing_skills_sorted (emp : Employee) (required : List String)
    (g : EmployeeSkillGap)
    (h : calculateEmployeeSkillGap (.ok (some emp)) required = .ok (some g)) :
    g.missingSkills.Pairwise
      (fun a b => priorityOrder a.priority ≤ priorityOrder b.priority) ∧
    ∀ p : Priority,
      g.missingSkills.filter (fun x => decide (x.priority = p))
        = (missingSkillsFor emp.skills required emp.role).filter
            (fun x => decide (x.priority = p)) := by
  simp only [calculateEmployeeSkillGap, Except.ok.injEq, Option.some.injEq] at h
  subst h
  constructor
  · exact sortByKey_sorted (fun x : SkillGap => priorityOrder x.priority) _
  · intro p
    have hinj : ∀ a b : Priority, priorityOrder a = priorityOrder b ↔ a = b := by
      intro a b
      cases a <;> cases b <;> simp [priorityOrder]
    have hpred : ∀ x : SkillGap,
        (decide (x.priority = p))
          = (decide (priorityOrder x.priority = priorityOrder p)) :=
      fun x => (decide_eq_decide.mpr (hinj x.priority p)).symm
    calc (sortByKey (fun x : SkillGap => priorityOrder x.priority)
            (missingSkillsFor emp.skills required emp.role)).filter
            (fun x => decide (x.priority = p))
        = (sortByKey (fun x : SkillGap => priorityOrder x.priority)
            (missingSkillsFor emp.skills required emp.role)).filter
            (fun x => decide (priorityOrder x.priority = priorityOrder p)) :=
          List.filter_congr (fun x _ => hpred x)
      _ = (missingSkillsFor emp.skills required emp.role).filter
            (fun x => decide (priorityOrder x.priority = priorityOrder p)) :=
          sortByKey_filter_key _ _ _
      _ = (missingSkillsFor emp.skills required emp.role).filter
            (fun x => decide (x.priority = p)) :=
          (List.filter_congr (fun x _ => hpred x)).symm

/-- Witness for C7: an employee with no skills against the requirement
list `[JavaScript]`. -/
theorem c7_missing_skills_sorted_witness :
    ([({ skill := "JavaScript"
         priority := Priority.critical
         reason := "Required for r role" } : SkillGap)]).Pairwise
      (fun a b => priorityOrder a.priority ≤ priorityOrder b.priority) := by
  have h := c7_missing_skills_sorted
    { id := 7
      name := "emp"
      email := "m"
      role := "r"
      department := "d"
      skills := []
      isActive := true }
    ["JavaScript"]
    { employeeId := 7
      employeeName := "emp"
      role := "r"
      currentSkills := []
      missingSkills := [{ skill := "JavaScript"
                          priority := Priority.critical
                          reason := "Required for r role" }]
      skillGapScore := skillGapScoreOf [] ["JavaScript"] }
    rfl
  exact h.1

/-! ## Claim C8 -/

/-- Evaluation of the recommender loop body for an idle employee of the
twin store. -/
theorem scoreEmployee_twin (i : Nat) :
    scoreEmployee emptyReq twinStore (mkActiveEmployee i []) = idleRec i := by
  simp [scoreEmployee, emptyReq, twinStore, mkActiveEmployee,
    calculateSkillsMatch, calculateWorkloadScore, getProductivityScore,
    calculateAvailabilityScore, idleRec]
  norm_num [round_ofNat, round_zero]

/-- Counterexample to C8.  Two indistinguishable active employees get the
same suitabilityScore 84, so the returned list is not strictly ordered:
84 is not strictly greater than 84. -/
theorem c8_counterexample :
    recommendEmployeesForTask emptyReq twinStore = .ok [idleRec 1, idleRec 2] ∧
    (idleRec 1).suitabilityScore = 84 ∧ (idleRec 2).suitabilityScore = 84 ∧
    ¬ ([84, 84] : List ℤ).Pairwise (fun a b => b < a) := by
  refine ⟨?_, rfl, rfl, by decide⟩
  rw [recommend_ok emptyReq twinStore [mkActiveEmployee 1 [], mkActiveEmployee 2 []] rfl]
  have hact : activeEmployees emptyReq [mkActiveEmployee 1 [], mkActiveEmployee 2 []]
      = [mkActiveEmployee 1 [], mkActiveEmployee 2 []] := by
    simp [activeEmployees, emptyReq, mkActiveEmployee]
  rw [hact]
  simp only [List.map_cons, List.map_nil, scoreEmployee_twin]
  simp [sortByKey, List.insertionSort, List.orderedInsert, idleRec]

/-- C8 (amended).  Every successful `recommendEmployeesForTask` call
returns at most 5 candidates, ordered by suitabilityScore
non-increasing; the order is not strict in general because candidates
can tie (see the counterexample). -/
theorem c8_top5_sorted (req : TaskRequirements) (st : RecommenderStore)
    (l : List EmployeeRecommendation)
    (h : recommendEmployeesForTask req st = .ok l) :
    l.length ≤ 5 ∧
    (l.map (fun r => r.suitabilityScore)).Pairwise (fun a b => b ≤ a) := by
  rcases hq : st.employeesQ with e | rows
  · unfold recommendEmployeesForTask at h
    rw [hq] at h
    exact absurd h (by simp)
  · rw [recommend_ok req st rows hq] at h
    by_cases hemp : (activeEmployees req rows).isEmpty
    · rw [if_pos hemp] at h
      simp only [Except.ok.injEq] at h
      subst h
      simp
    · rw [if_neg hemp] at h
      simp only [Except.ok.injEq] at h
      subst h
      constructor
      · exact List.length_take_le 5 _
      · have hsort := sortByKey_sorted
          (fun r : EmployeeRecommendation => -r.suitabilityScore)
          ((activeEmployees req rows).map (scoreEmployee req st))
        have htake := hsort.sublist (List.take_sublist 5 _)
        rw [List.pairwise_map]
        exact htake.imp (fun hab => by omega)

/-- Witness for C8 (amended): the empty organization returns the empty
candidate list. -/
theorem c8_top5_sorted_witness :
    (([] : List EmployeeRecommendation).length ≤ 5) ∧
    (([] : List EmployeeRecommendation).map
      (fun r => r.suitabilityScore)).Pairwise (fun a b => b ≤ a) :=
  c8_top5_sorted emptyReq emptyStore [] rfl

/-! ## Claim C9 -/

/-- Evaluation of the recommender loop body for the idle employees who
hold the required skill `Python`. -/
theorem scoreEmployee_python (i : Nat) :
    scoreEmployee pythonReq sixEmployeeStore (mkActiveEmployee i ["Python"])
      = idleRec i := by
  simp [scoreEmployee, pythonReq, sixEmployeeStore, mkActiveEmployee,
    calculateSkillsMatch, calculateWorkloadScore, getProductivityScore,
    calculateAvailabilityScore, idleRec]
  norm_num [round_ofNat, round_zero]

/-- Evaluation of the recommender loop body for employee 6, who lacks
`Python`. -/
theorem scoreEmployee_noPython :
    scoreEmployee pythonReq sixEmployeeStore (mkActiveEmployee 6 [])
      = missingSkillRec := by
  simp [scoreEmployee, pythonReq, sixEmployeeStore, mkActiveEmployee,
    calculateSkillsMatch, calculateWorkloadScore, getProductivityScore,
    calculateAvailabilityScore, missingSkillRec]
  norm_num [round_ofNat, round_zero]

/-- The six-employee state returns exactly the five 84-point candidates:
employee 6 (44 points) is cut by the top-5 truncation. -/
theorem recommend_sixEmployees :
    recommendEmployeesForTask pythonReq sixEmployeeStore
      = .ok [idleRec 1, idleRec 2, idleRec 3, idleRec 4, idleRec 5] := by
  rw [recommend_ok pythonReq sixEmployeeStore sixEmployeeRows rfl]
  have hact : activeEmployees pythonReq sixEmployeeRows = sixEmployeeRows := by
    simp [activeEmployees, pythonReq, sixEmployeeRows, mkActiveEmployee]
  rw [hact]
  simp only [sixEmployeeRows, List.map_cons, List.map_nil,
    scoreEmployee_python, scoreEmployee_noPython]
  simp [sortByKey, List.insertionSort, List.orderedInsert, idleRec,
    missingSkillRec]

/-- C9.  In the six-employee state, employee 6 exists and is active, yet
five other employees rank strictly above them (84 > 44), the truncated
top-5 list omits them, and `validateEmployeeForTask` therefore returns
`suitable = false, score = 0` with the single warning "Employee not found
or not active" — exactly the result it returns for a genuinely absent
employee (id 999). -/
theorem c9_validate_truncated :
    sixEmployeeStore.employeesQ = .ok sixEmployeeRows ∧
    (mkActiveEmployee 6 [] ∈ sixEmployeeRows) ∧
    (mkActiveEmployee 6 []).isActive = true ∧
    recommendEmployeesForTask pythonReq sixEmployeeStore
      = .ok [idleRec 1, idleRec 2, idleRec 3, idleRec 4, idleRec 5] ∧
    (scoreEmployee pythonReq sixEmployeeStore (mkActiveEmployee 6 [])).suitabilityScore = 44 ∧
    validateEmployeeForTask 6 pythonReq sixEmployeeStore
      = { suitable := false
          score := 0
          warnings := ["Employee not found or not active"] } ∧
    validateEmployeeForTask 999 pythonReq sixEmployeeStore
      = { suitable := false
          score := 0
          warnings := ["Employee not found or not active"] } := by
  refine ⟨rfl, by simp [sixEmployeeRows], rfl, recommend_sixEmployees,
    by rw [scoreEmployee_noPython]; rfl, ?_, ?_⟩
  · unfold validateEmployeeForTask
    rw [recommend_sixEmployees]
    simp [List.find?, idleRec]
  · unfold validateEmployeeForTask
    rw [recommend_sixEmployees]
    simp [List.find?, idleRec]

/-! ## Claim C10 -/

/-- Counterexample to the last clause of C10.  For a completed task whose
completion and creation timestamps coincide, the 0-hour average is indeed
replaced by 24 — but the resulting completionTimeScore is
`clamp(0,100,(24/24)*100) = 100`, which IS the maximum time score (and
the same value an absent average produces), refuting "rather than
receiving the maximum time score". -/
theorem c10_counterexample :
    avgHoursOpt [instantTask] = some 0 ∧
    orElseIfZero (avgHoursOpt [instantTask]) 24 = 24 ∧
    clamp0100 (24 / orElseIfZero (avgHoursOpt [instantTask]) 24 * 100) = 100 ∧
    clamp0100 (24 / orElseIfZero none 24 * 100) = 100 := by
  have h0 : avgHoursOpt [instantTask] = some 0 := by
    simp [avgHoursOpt, completedOf, instantTask, msPerHour]
  have h24 : orElseIfZero (avgHoursOpt [instantTask]) 24 = 24 := by
    rw [h0]
    simp [orElseIfZero]
  refine ⟨h0, h24, ?_, ?_⟩
  · rw [h24, clamp0100]
    norm_num [min_def, max_def]
  · show clamp0100 (24 / 24 * 100) = 100
    rw [clamp0100]
    norm_num [min_def, max_def]

/-- C10 (amended).  The divisor of `completionTimeScore` is never zero:
an absent average completion time is replaced by 24, and an average of
exactly 0 hours is also treated as missing (JavaScript `|| 24`), so such
an employee is scored exactly as if no timing data existed — which yields
`completionTimeScore = 100`, the maximum of the clamp. -/
theorem c10_divisor_never_zero (tasks : List Task) :
    orElseIfZero (avgHoursOpt tasks) 24 ≠ 0 ∧
    (avgHoursOpt tasks = some 0 →
      orElseIfZero (avgHoursOpt tasks) 24 = orElseIfZero none 24 ∧
      clamp0100 (24 / orElseIfZero (avgHoursOpt tasks) 24 * 100) = 100) ∧
    (∀ x : ℚ, clamp0100 x ≤ 100) := by
  refine ⟨?_, ?_, fun x => (clamp0100_bounds x).2⟩
  · rcases h : avgHoursOpt tasks with _ | v
    · simp [orElseIfZero]
    · by_cases hz : v = 0
      · simp [orElseIfZero, hz]
      · simp [orElseIfZero, hz]
  · intro h0
    rw [h0]
    constructor
    · rfl
    · show clamp0100 (24 / 24 * 100) = 100
      rw [clamp0100]
      norm_num [min_def, max_def]

/-- Witness for C10 (amended): the zero-hours task list. -/
theorem c10_divisor_never_zero_witness :
    orElseIfZero (avgHoursOpt [instantTask]) 24 ≠ 0 ∧
    clamp0100 (24 / orElseIfZero (avgHoursOpt [instantTask]) 24 * 100) = 100 := by
  have h := c10_divisor_never_zero [instantTask]
  have h0 : avgHoursOpt [instantTask] = some 0 := by
    simp [avgHoursOpt, completedOf, instantTask, msPerHour]
  exact ⟨h.1, (h.2.1 h0).2⟩

end HRMS
